import Mathlib

/-!
Shallow embedding of the booking-conflict and authorization core of the
canoe-club inventory service (src/backend/app.py, src/backend/models.py).
Datetimes are modelled as integers under their total order; the persisted
booking table is a list of rows together with the autoincrement counter.
A handler that raises an HTTP error before committing is modelled as a
function returning Except: the error constructor records the status the
code raises, and an error result produces no new store.
-/

namespace CanoeClub

/-- A persisted booking row (models.py, class Booking): autoincrement id plus
the BookingBase fields user_id, item_id, start_time, end_time. -/
structure Booking where
  id : Nat
  user_id : Int
  item_id : Int
  start_time : Int
  end_time : Int
deriving DecidableEq

/-- The request body for creating or updating a booking (models.py,
class BookingCreate = BookingBase). -/
structure BookingCreate where
  user_id : Int
  item_id : Int
  start_time : Int
  end_time : Int
deriving DecidableEq

/-- An authenticated user (models.py, class User, lines 16-18). The table
declares id, username, email and hashed_password and nothing else: in
particular it has NO is_admin column. Only id is read by the authorization
core, so the other columns are omitted here; the missing is_admin attribute
is modelled where it is read (see read_is_admin_attr below). -/
structure User where
  id : Int
deriving DecidableEq

/-- A persisted inventory row (models.py, class Inventory). -/
structure Inventory where
  id : Nat
  reference : String
  category : String
  size : String
deriving DecidableEq

/-- The request body for creating or updating an inventory item (models.py,
class InventoryCreate = InventoryBase). -/
structure InventoryCreate where
  reference : String
  category : String
  size : String
deriving DecidableEq

/-- The error outcomes the embedded handlers can produce: 409 Conflict from
the availability check, 404 Not Found, the 401 "Admin only" of is_admin and
the 401 "Not authorised ..." branch of the owner check (both dead code on the
backend User model), and the AttributeError raised by reading the missing
is_admin column, which the framework surfaces as an unhandled 500. -/
inductive ApiError where
  | conflict
  | notFound
  | adminOnly
  | notAuthorised
  | attributeError
deriving DecidableEq

/-- The persisted booking table plus the autoincrement id counter. -/
structure Store where
  bookings : List Booking
  next_id : Nat
deriving DecidableEq

/-- The persisted inventory table plus the autoincrement id counter. -/
structure InvStore where
  items : List Inventory
  next_id : Nat
deriving DecidableEq

/-- check_if_item_available (app.py lines 318-332): select all bookings with
Booking.item_id == item_id, Booking.start_time <= end and
Booking.end_time >= start; raise 409 Conflict if any exist. -/
def check_if_item_available (item_id : Int) (start endt : Int)
    (bookings : List Booking) : Except ApiError Unit :=
  let overlapping := bookings.filter fun b =>
    decide (b.item_id = item_id ∧ b.start_time ≤ endt ∧ b.end_time ≥ start)
  if overlapping.isEmpty then Except.ok () else Except.error ApiError.conflict

/-- Reading user.is_admin (app.py line 98) on the backend User model: the
table (models.py lines 16-18) declares no is_admin column, so Python
attribute lookup raises AttributeError, which the framework surfaces as an
unhandled 500 for every actor. -/
def read_is_admin_attr (user : User) : Except ApiError Bool :=
  Except.error ApiError.attributeError

/-- is_admin (app.py lines 97-101): `if not user.is_admin or not
isinstance(user.is_admin, bool): raise HTTPException(401, "Admin only") else:
return user.is_admin`. Evaluating `user.is_admin` itself raises on the
backend User model, so the 401 branch and the return are both dead code:
the function raises for every actor and never returns a value. -/
def is_admin (user : User) : Except ApiError Bool :=
  match read_is_admin_attr user with
  | Except.error e => Except.error e
  | Except.ok flag =>
    if !flag then Except.error ApiError.adminOnly else Except.ok flag

/-- The guard shared by update_booking and delete_booking (app.py lines
382-385 and 412-415): `if db_booking.user_id != current_user.id and not
is_admin(current_user): raise HTTPException(401, "Not authorised ...")`.
Python's `and` short-circuits, so the owner never triggers the is_admin
read; for a non-owner, is_admin raises before returning, so the explicit 401
"Not authorised" branch is dead code. -/
def owner_or_admin (booking_user_id : Int) (current_user : User) :
    Except ApiError Unit :=
  if booking_user_id = current_user.id then Except.ok ()
  else
    match is_admin current_user with
    | Except.error e => Except.error e
    | Except.ok b => if b then Except.ok () else Except.error ApiError.notAuthorised

/-- create_booking (app.py lines 344-357): run the availability check for the
requested item and interval, then persist the row with a fresh id. The handler
body never reads the authenticated user or the user table. -/
def create_booking (booking : BookingCreate) (s : Store) :
    Except ApiError (Booking × Store) :=
  match check_if_item_available booking.item_id booking.start_time
      booking.end_time s.bookings with
  | Except.error e => Except.error e
  | Except.ok _ =>
    let db : Booking :=
      ⟨s.next_id, booking.user_id, booking.item_id, booking.start_time,
        booking.end_time⟩
    Except.ok (db, ⟨s.bookings ++ [db], s.next_id + 1⟩)

/-- The POST /bookings route around create_booking: Depends(get_current_user)
requires an authenticated actor and the session exposes the user table, but
the handler body consults neither. -/
def create_booking_route (current_user : User) (users : List User)
    (booking : BookingCreate) (s : Store) : Except ApiError (Booking × Store) :=
  create_booking booking s

/-- update_booking (app.py lines 368-390): 404 if the booking id is absent,
then the owner-or-admin guard, then every field of the request body is
assigned onto the persisted row and committed. No availability check is
performed anywhere in this handler. -/
def update_booking (id : Nat) (updated : BookingCreate) (current_user : User)
    (s : Store) : Except ApiError (Booking × Store) :=
  match s.bookings.find? (fun b => b.id == id) with
  | none => Except.error ApiError.notFound
  | some db =>
    match owner_or_admin db.user_id current_user with
    | Except.error e => Except.error e
    | Except.ok _ =>
      let newb : Booking :=
        ⟨db.id, updated.user_id, updated.item_id, updated.start_time,
          updated.end_time⟩
      Except.ok (newb,
        ⟨s.bookings.map (fun b => if b.id == id then newb else b), s.next_id⟩)

/-- delete_booking (app.py lines 399-418): 404 if the booking id is absent,
then the owner-or-admin guard, then the row is deleted. No availability check
is performed. -/
def delete_booking (id : Nat) (current_user : User) (s : Store) :
    Except ApiError Store :=
  match s.bookings.find? (fun b => b.id == id) with
  | none => Except.error ApiError.notFound
  | some db =>
    match owner_or_admin db.user_id current_user with
    | Except.error e => Except.error e
    | Except.ok _ =>
      Except.ok ⟨s.bookings.filter (fun b => !(b.id == id)), s.next_id⟩

/-- create_item (app.py lines 197-209): is_admin gate first, then persist the
new inventory row with a fresh id. -/
def create_item (item : InventoryCreate) (current_user : User) (s : InvStore) :
    Except ApiError (Inventory × InvStore) :=
  match is_admin current_user with
  | Except.error e => Except.error e
  | Except.ok _ =>
    let db : Inventory := ⟨s.next_id, item.reference, item.category, item.size⟩
    Except.ok (db, ⟨s.items ++ [db], s.next_id + 1⟩)

/-- update_item (app.py lines 220-238): is_admin gate first, then 404 if the
item id is absent, then every submitted field is assigned onto the row. -/
def update_item (id : Nat) (updated : InventoryCreate) (current_user : User)
    (s : InvStore) : Except ApiError (Inventory × InvStore) :=
  match is_admin current_user with
  | Except.error e => Except.error e
  | Except.ok _ =>
    match s.items.find? (fun i => i.id == id) with
    | none => Except.error ApiError.notFound
    | some _ =>
      let newi : Inventory := ⟨id, updated.reference, updated.category, updated.size⟩
      Except.ok (newi,
        ⟨s.items.map (fun i => if i.id == id then newi else i), s.next_id⟩)

/-- delete_item (app.py lines 247-262): is_admin gate first, then 404 if the
item id is absent, then the row is deleted. -/
def delete_item (id : Nat) (current_user : User) (s : InvStore) :
    Except ApiError InvStore :=
  match is_admin current_user with
  | Except.error e => Except.error e
  | Except.ok _ =>
    match s.items.find? (fun i => i.id == id) with
    | none => Except.error ApiError.notFound
    | some _ =>
      Except.ok ⟨s.items.filter (fun i => !(i.id == id)), s.next_id⟩

/-- A booking-table request, for reasoning about sequences of operations. -/
inductive Op where
  | create (booking : BookingCreate)
  | update (id : Nat) (booking : BookingCreate) (actor : User)
  | delete (id : Nat) (actor : User)
deriving DecidableEq

/-- The effect of one request on the persisted store: a handler that raises
does so before any session mutation, so an error leaves the store unchanged;
a success commits the new store. -/
def apply_op : Op → Store → Store
  | Op.create b, s =>
    match create_booking b s with
    | Except.ok r => r.2
    | Except.error _ => s
  | Op.update i b a, s =>
    match update_booking i b a s with
    | Except.ok r => r.2
    | Except.error _ => s
  | Op.delete i a, s =>
    match delete_booking i a s with
    | Except.ok s2 => s2
    | Except.error _ => s

/-- The store reached after a sequence of requests. -/
def run (ops : List Op) (s : Store) : Store :=
  ops.foldl (fun st op => apply_op op st) s

/-- The spec's inclusive overlap predicate between two persisted bookings on
the same item: b1.start_time <= b2.end_time AND b1.end_time >= b2.start_time. -/
def bookingsOverlap (b1 b2 : Booking) : Prop :=
  b1.item_id = b2.item_id ∧ b1.start_time ≤ b2.end_time ∧
    b1.end_time ≥ b2.start_time

instance (b1 b2 : Booking) : Decidable (bookingsOverlap b1 b2) :=
  inferInstanceAs (Decidable (_ ∧ _))

/-- The no-overlap invariant on a booking table: no two distinct persisted
rows with the same item_id satisfy the overlap predicate. -/
def noOverlapL (l : List Booking) : Prop :=
  ∀ b1 ∈ l, ∀ b2 ∈ l, b1 ≠ b2 → ¬ bookingsOverlap b1 b2

/-- The no-overlap invariant on a store. -/
def noOverlap (s : Store) : Prop :=
  noOverlapL s.bookings

/-- Whether a request is a booking update. -/
def Op.isUpd : Op → Bool
  | Op.update _ _ _ => true
  | _ => false

/-- A store holding one booking on item 7 over [600, 660] (minutes: the
interval 10:00-11:00 of the spec's boundary scenario), owned by user 1. -/
def storeA : Store := ⟨[⟨1, 1, 7, 600, 660⟩], 2⟩

/-- A store holding two disjoint bookings on item 1, both owned by user 5. -/
def storeTwo : Store := ⟨[⟨1, 5, 1, 0, 10⟩, ⟨2, 5, 1, 20, 30⟩], 3⟩

/-- User 5. -/
def user5 : User := ⟨5⟩

/-- The single request that moves booking 2 of storeTwo onto booking 1. -/
def opsMove : List Op := [Op.update 2 ⟨5, 1, 5, 15⟩ user5]

/-- The availability check succeeds exactly when no persisted booking on the
item satisfies the inclusive overlap predicate against the candidate. -/
theorem check_eq_ok_iff (item start endt : Int) (bs : List Booking) :
    check_if_item_available item start endt bs = Except.ok () ↔
      ∀ b ∈ bs, ¬(b.item_id = item ∧ b.start_time ≤ endt ∧ b.end_time ≥ start) := by
  unfold check_if_item_available
  dsimp only
  split
  next h =>
    simp only [List.isEmpty_iff, List.filter_eq_nil_iff, decide_eq_true_eq] at h
    exact iff_of_true rfl h
  next h =>
    simp only [List.isEmpty_iff, List.filter_eq_nil_iff, decide_eq_true_eq] at h
    push_neg at h
    obtain ⟨b, hb, hpred⟩ := h
    constructor
    · intro hc; exact Except.noConfusion hc
    · intro hall; exact absurd hpred (hall b hb)

/-- The availability check raises Conflict exactly when some persisted booking
on the item satisfies the inclusive overlap predicate against the candidate. -/
theorem check_eq_conflict_iff (item start endt : Int) (bs : List Booking) :
    check_if_item_available item start endt bs = Except.error ApiError.conflict ↔
      ∃ b ∈ bs, b.item_id = item ∧ b.start_time ≤ endt ∧ b.end_time ≥ start := by
  unfold check_if_item_available
  dsimp only
  split
  next h =>
    simp only [List.isEmpty_iff, List.filter_eq_nil_iff, decide_eq_true_eq] at h
    constructor
    · intro hc; exact Except.noConfusion hc
    · rintro ⟨b, hb, hpred⟩; exact absurd hpred (h b hb)
  next h =>
    simp only [List.isEmpty_iff, List.filter_eq_nil_iff, decide_eq_true_eq] at h
    push_neg at h
    exact iff_of_true rfl h

/-- When the availability check passes, create_booking appends the fresh row
and bumps the id counter. -/
theorem create_booking_of_check_ok (pl : BookingCreate) (s : Store)
    (h : ∀ b ∈ s.bookings,
      ¬(b.item_id = pl.item_id ∧ b.start_time ≤ pl.end_time ∧
          b.end_time ≥ pl.start_time)) :
    create_booking pl s = Except.ok
      (⟨s.next_id, pl.user_id, pl.item_id, pl.start_time, pl.end_time⟩,
       ⟨s.bookings ++
          [⟨s.next_id, pl.user_id, pl.item_id, pl.start_time, pl.end_time⟩],
        s.next_id + 1⟩) := by
  unfold create_booking
  rw [(check_eq_ok_iff pl.item_id pl.start_time pl.end_time s.bookings).mpr h]

/-- Whatever create_booking returns on success: the check passed and the
result is the fresh row appended to the table. -/
theorem create_booking_ok_elim (pl : BookingCreate) (s : Store)
    (r : Booking × Store) (hc : create_booking pl s = Except.ok r) :
    (∀ b ∈ s.bookings,
      ¬(b.item_id = pl.item_id ∧ b.start_time ≤ pl.end_time ∧
          b.end_time ≥ pl.start_time)) ∧
    r = (⟨s.next_id, pl.user_id, pl.item_id, pl.start_time, pl.end_time⟩,
      ⟨s.bookings ++
        [⟨s.next_id, pl.user_id, pl.item_id, pl.start_time, pl.end_time⟩],
       s.next_id + 1⟩) := by
  unfold create_booking at hc
  cases hchk : check_if_item_available pl.item_id pl.start_time pl.end_time
      s.bookings with
  | error e => rw [hchk] at hc; exact Except.noConfusion hc
  | ok u =>
    cases u
    rw [hchk] at hc
    exact ⟨(check_eq_ok_iff _ _ _ _).mp hchk, (Except.ok.inj hc).symm⟩

/-- create_booking fails exactly as the availability check does. -/
theorem create_booking_eq_error_iff (pl : BookingCreate) (s : Store)
    (e : ApiError) :
    create_booking pl s = Except.error e ↔
      check_if_item_available pl.item_id pl.start_time pl.end_time s.bookings =
        Except.error e := by
  unfold create_booking
  cases hchk : check_if_item_available pl.item_id pl.start_time pl.end_time
      s.bookings with
  | error e2 => simp
  | ok u => cases u; simp

/-- is_admin raises for every actor: the attribute read crashes before the
401 branch or the return can run. -/
theorem is_admin_raises (u : User) :
    is_admin u = Except.error ApiError.attributeError := rfl

/-- is_admin never returns a value, so no actor is ever treated as admin. -/
theorem is_admin_never_ok (u : User) (b : Bool) :
    is_admin u ≠ Except.ok b := by
  rw [is_admin_raises u]
  exact Except.noConfusion

/-- The owner passes the guard without the admin flag being consulted. -/
theorem owner_or_admin_owner (uid : Int) (u : User) (h : uid = u.id) :
    owner_or_admin uid u = Except.ok () := by
  unfold owner_or_admin
  rw [if_pos h]

/-- A non-owner crashes the guard: is_admin raises AttributeError, surfaced
as an unhandled 500 (the explicit Not-authorised branch is unreachable). -/
theorem owner_or_admin_denied (uid : Int) (u : User) (h1 : uid ≠ u.id) :
    owner_or_admin uid u = Except.error ApiError.attributeError := by
  unfold owner_or_admin
  rw [if_neg h1, is_admin_raises u]

/-- The guard passes only for the owner: no admin path can succeed. -/
theorem owner_or_admin_ok_elim (uid : Int) (u : User)
    (h : owner_or_admin uid u = Except.ok ()) :
    uid = u.id := by
  by_cases ho : uid = u.id
  · exact ho
  · rw [owner_or_admin_denied uid u ho] at h
    exact Except.noConfusion h

/-- On success, update_booking rewrites exactly the targeted row with the
request-body fields; the guard passed, and no availability check ran. -/
theorem update_booking_ok_elim (id : Nat) (pl : BookingCreate) (u : User)
    (s : Store) (r : Booking × Store)
    (h : update_booking id pl u s = Except.ok r) :
    ∃ db, s.bookings.find? (fun b => b.id == id) = some db ∧
      owner_or_admin db.user_id u = Except.ok () ∧
      r = (⟨db.id, pl.user_id, pl.item_id, pl.start_time, pl.end_time⟩,
        ⟨s.bookings.map (fun b => if b.id == id then
            ⟨db.id, pl.user_id, pl.item_id, pl.start_time, pl.end_time⟩
          else b), s.next_id⟩) := by
  unfold update_booking at h
  cases hf : s.bookings.find? (fun b => b.id == id) with
  | none => rw [hf] at h; exact Except.noConfusion h
  | some db =>
    rw [hf] at h
    dsimp only at h
    cases hg : owner_or_admin db.user_id u with
    | error e => rw [hg] at h; exact Except.noConfusion h
    | ok v =>
      cases v
      rw [hg] at h
      dsimp only at h
      exact ⟨db, rfl, hg, (Except.ok.inj h).symm⟩

/-- When the targeted row exists and the guard passes, update_booking
succeeds and commits exactly the request-body fields. -/
theorem update_booking_ok_intro (id : Nat) (pl : BookingCreate) (u : User)
    (s : Store) (db : Booking)
    (hf : s.bookings.find? (fun b => b.id == id) = some db)
    (hg : owner_or_admin db.user_id u = Except.ok ()) :
    update_booking id pl u s = Except.ok
      (⟨db.id, pl.user_id, pl.item_id, pl.start_time, pl.end_time⟩,
        ⟨s.bookings.map (fun b => if b.id == id then
            ⟨db.id, pl.user_id, pl.item_id, pl.start_time, pl.end_time⟩
          else b), s.next_id⟩) := by
  unfold update_booking
  rw [hf]
  dsimp only
  rw [hg]

/-- On success, delete_booking removes exactly the targeted row; the guard
passed, and no availability check ran. -/
theorem delete_booking_ok_elim (id : Nat) (u : User) (s : Store) (s2 : Store)
    (h : delete_booking id u s = Except.ok s2) :
    ∃ db, s.bookings.find? (fun b => b.id == id) = some db ∧
      owner_or_admin db.user_id u = Except.ok () ∧
      s2 = ⟨s.bookings.filter (fun b => !(b.id == id)), s.next_id⟩ := by
  unfold delete_booking at h
  cases hf : s.bookings.find? (fun b => b.id == id) with
  | none => rw [hf] at h; exact Except.noConfusion h
  | some db =>
    rw [hf] at h
    dsimp only at h
    cases hg : owner_or_admin db.user_id u with
    | error e => rw [hg] at h; exact Except.noConfusion h
    | ok v =>
      cases v
      rw [hg] at h
      dsimp only at h
      exact ⟨db, rfl, hg, (Except.ok.inj h).symm⟩

/-- When the targeted row exists and the guard passes, delete_booking
succeeds and removes the row. -/
theorem delete_booking_ok_intro (id : Nat) (u : User) (s : Store)
    (db : Booking) (hf : s.bookings.find? (fun b => b.id == id) = some db)
    (hg : owner_or_admin db.user_id u = Except.ok ()) :
    delete_booking id u s =
      Except.ok ⟨s.bookings.filter (fun b => !(b.id == id)), s.next_id⟩ := by
  unfold delete_booking
  rw [hf]
  dsimp only
  rw [hg]

/-- When the row exists but the actor is not the owner, both booking
mutations die in the is_admin attribute read: the request fails with the
unhandled AttributeError and nothing is committed. -/
theorem booking_mutation_denied (id : Nat) (pl : BookingCreate) (u : User)
    (s : Store) (db : Booking)
    (hf : s.bookings.find? (fun b => b.id == id) = some db)
    (h1 : db.user_id ≠ u.id) :
    update_booking id pl u s = Except.error ApiError.attributeError ∧
    delete_booking id u s = Except.error ApiError.attributeError := by
  constructor
  · unfold update_booking
    rw [hf]
    dsimp only
    rw [owner_or_admin_denied db.user_id u h1]
  · unfold delete_booking
    rw [hf]
    dsimp only
    rw [owner_or_admin_denied db.user_id u h1]

/-- Appending a row that passed the availability check preserves the
no-overlap invariant of the table. -/
theorem noOverlapL_append (l : List Booking) (nb : Booking) (h : noOverlapL l)
    (hc : ∀ b ∈ l, ¬(b.item_id = nb.item_id ∧ b.start_time ≤ nb.end_time ∧
        b.end_time ≥ nb.start_time)) :
    noOverlapL (l ++ [nb]) := by
  intro b1 h1 b2 h2 hne hov
  rcases List.mem_append.mp h1 with h1m | h1m
  · rcases List.mem_append.mp h2 with h2m | h2m
    · exact h b1 h1m b2 h2m hne hov
    · have hb2 : b2 = nb := by simpa using h2m
      subst hb2
      exact hc b1 h1m hov
  · have hb1 : b1 = nb := by simpa using h1m
    subst hb1
    rcases List.mem_append.mp h2 with h2m | h2m
    · obtain ⟨hi, hs, he⟩ := hov
      exact hc b2 h2m ⟨hi.symm, he, hs⟩
    · have hb2 : b2 = b1 := by simpa using h2m
      exact hne hb2.symm

/-- Removing rows preserves the no-overlap invariant of the table. -/
theorem noOverlapL_filter (l : List Booking) (p : Booking → Bool)
    (h : noOverlapL l) : noOverlapL (l.filter p) := by
  intro b1 h1 b2 h2 hne
  exact h b1 (List.mem_filter.mp h1).1 b2 (List.mem_filter.mp h2).1 hne

/-- A create or delete request (successful or not) preserves the no-overlap
invariant of the store. -/
theorem apply_op_preserves_noOverlap (op : Op) (s : Store)
    (hop : op.isUpd = false) (h : noOverlap s) : noOverlap (apply_op op s) := by
  cases op with
  | create pl =>
    simp only [apply_op]
    cases hc : create_booking pl s with
    | error e => exact h
    | ok r =>
      obtain ⟨hall, hr⟩ := create_booking_ok_elim pl s r hc
      show noOverlapL r.2.bookings
      rw [hr]
      exact noOverlapL_append s.bookings _ h hall
  | update i pl a => exact absurd hop (by simp [Op.isUpd])
  | delete i a =>
    simp only [apply_op]
    cases hd : delete_booking i a s with
    | error e => exact h
    | ok s2 =>
      obtain ⟨db, _, _, hs2⟩ := delete_booking_ok_elim i a s s2 hd
      show noOverlapL s2.bookings
      rw [hs2]
      exact noOverlapL_filter s.bookings _ h

/-- The guard can only fail with the AttributeError from the is_admin read:
the owner branch returns unit and the Not-authorised branch is dead code. -/
theorem owner_or_admin_error_elim (uid : Int) (u : User) (e : ApiError)
    (h : owner_or_admin uid u = Except.error e) :
    e = ApiError.attributeError := by
  by_cases ho : uid = u.id
  · rw [owner_or_admin_owner uid u ho] at h
    exact Except.noConfusion h
  · rw [owner_or_admin_denied uid u ho] at h
    exact (Except.error.inj h).symm

/-- update_booking contains no availability check: it can never raise
Conflict. -/
theorem update_booking_never_conflict (id : Nat) (pl : BookingCreate)
    (a : User) (s : Store) :
    update_booking id pl a s ≠ Except.error ApiError.conflict := by
  intro hcon
  unfold update_booking at hcon
  cases hf : s.bookings.find? (fun b => b.id == id) with
  | none =>
    rw [hf] at hcon
    exact ApiError.noConfusion (Except.error.inj hcon)
  | some db =>
    rw [hf] at hcon
    dsimp only at hcon
    cases hg : owner_or_admin db.user_id a with
    | error e =>
      rw [hg] at hcon
      have he : e = ApiError.conflict := Except.error.inj hcon
      subst he
      exact ApiError.noConfusion (owner_or_admin_error_elim _ _ _ hg)
    | ok v =>
      cases v
      rw [hg] at hcon
      dsimp only at hcon
      exact Except.noConfusion hcon

/-- delete_booking contains no availability check: it can never raise
Conflict. -/
theorem delete_booking_never_conflict (id : Nat) (a : User) (s : Store) :
    delete_booking id a s ≠ Except.error ApiError.conflict := by
  intro hcon
  unfold delete_booking at hcon
  cases hf : s.bookings.find? (fun b => b.id == id) with
  | none =>
    rw [hf] at hcon
    exact ApiError.noConfusion (Except.error.inj hcon)
  | some db =>
    rw [hf] at hcon
    dsimp only at hcon
    cases hg : owner_or_admin db.user_id a with
    | error e =>
      rw [hg] at hcon
      have he : e = ApiError.conflict := Except.error.inj hcon
      subst he
      exact ApiError.noConfusion (owner_or_admin_error_elim _ _ _ hg)
    | ok v =>
      cases v
      rw [hg] at hcon
      dsimp only at hcon
      exact Except.noConfusion hcon

instance (l : List Booking) : Decidable (noOverlapL l) := by
  unfold noOverlapL
  infer_instance

instance (s : Store) : Decidable (noOverlap s) := by
  unfold noOverlap
  infer_instance

/-- Sequences of requests without updates preserve the no-overlap invariant
(structural recursion over the request list). -/
theorem run_no_upd_preserves : ∀ (ops : List Op) (s : Store),
    (∀ op ∈ ops, op.isUpd = false) → noOverlap s → noOverlap (run ops s)
  | [], _, _, hs => hs
  | op :: rest, s, h, hs =>
    run_no_upd_preserves rest (apply_op op s)
      (fun o ho => h o (List.mem_cons_of_mem op ho))
      (apply_op_preserves_noOverlap op s (h op (List.mem_cons_self op rest)) hs)

/-- C1: for every call to the availability check with an item_id, start and
end, the check fails with Conflict (HTTP 409) if and only if some existing
persisted booking with the same item_id satisfies the inclusive overlap
predicate existing.start_time <= end AND existing.end_time >= start; when no
such booking exists, the check succeeds and create_booking persists the
candidate booking. -/
theorem C1_availability_check (pl : BookingCreate) (s : Store) :
    (check_if_item_available pl.item_id pl.start_time pl.end_time s.bookings =
        Except.error ApiError.conflict ↔
      ∃ b ∈ s.bookings, b.item_id = pl.item_id ∧ b.start_time ≤ pl.end_time ∧
        b.end_time ≥ pl.start_time) ∧
    ((¬ ∃ b ∈ s.bookings, b.item_id = pl.item_id ∧ b.start_time ≤ pl.end_time ∧
        b.end_time ≥ pl.start_time) →
      check_if_item_available pl.item_id pl.start_time pl.end_time s.bookings =
        Except.ok () ∧
      create_booking pl s = Except.ok
        (⟨s.next_id, pl.user_id, pl.item_id, pl.start_time, pl.end_time⟩,
         ⟨s.bookings ++
            [⟨s.next_id, pl.user_id, pl.item_id, pl.start_time, pl.end_time⟩],
          s.next_id + 1⟩)) := by
  refine ⟨check_eq_conflict_iff _ _ _ _, fun hne => ?_⟩
  have hall : ∀ b ∈ s.bookings, ¬(b.item_id = pl.item_id ∧
      b.start_time ≤ pl.end_time ∧ b.end_time ≥ pl.start_time) :=
    fun b hb hp => hne ⟨b, hb, hp⟩
  exact ⟨(check_eq_ok_iff _ _ _ _).mpr hall,
    create_booking_of_check_ok pl s hall⟩

/-- C1 at a concrete input: booking 1 on item 7 over [600, 660] makes the
check for [660, 720] raise Conflict, while the candidate [661, 720] is
persisted. -/
theorem C1_availability_check_witness :
    check_if_item_available 7 660 720 storeA.bookings =
      Except.error ApiError.conflict ∧
    create_booking ⟨2, 7, 661, 720⟩ storeA = Except.ok
      (⟨2, 2, 7, 661, 720⟩,
        ⟨[⟨1, 1, 7, 600, 660⟩, ⟨2, 2, 7, 661, 720⟩], 3⟩) := by
  constructor
  · exact (C1_availability_check ⟨2, 7, 660, 720⟩ storeA).1.mpr
      ⟨⟨1, 1, 7, 600, 660⟩, by decide, by decide⟩
  · exact ((C1_availability_check ⟨2, 7, 661, 720⟩ storeA).2 (by decide)).2

/-- C4: with booking A on item 7 over [600, 660] persisted (the spec's
10:00-11:00 in minutes), creating B over [660, 720] (11:00-12:00, touching A
only at the shared endpoint) is rejected with Conflict, while creating C over
[661, 720] (11:01-12:00, disjoint from A) succeeds. -/
theorem C4_boundary_touch_conflicts :
    create_booking ⟨2, 7, 660, 720⟩ storeA = Except.error ApiError.conflict ∧
    create_booking ⟨2, 7, 661, 720⟩ storeA = Except.ok
      (⟨2, 2, 7, 661, 720⟩,
        ⟨[⟨1, 1, 7, 600, 660⟩, ⟨2, 2, 7, 661, 720⟩], 3⟩) :=
  ⟨rfl, rfl⟩

/-- C7: whenever the availability check raises Conflict for a candidate, the
creation fails with Conflict and the stored bookings after the failed call
equal those before it. -/
theorem C7_rejected_create_persists_nothing (pl : BookingCreate) (s : Store)
    (h : check_if_item_available pl.item_id pl.start_time pl.end_time
        s.bookings = Except.error ApiError.conflict) :
    create_booking pl s = Except.error ApiError.conflict ∧
    apply_op (Op.create pl) s = s := by
  have hc : create_booking pl s = Except.error ApiError.conflict :=
    (create_booking_eq_error_iff pl s ApiError.conflict).mpr h
  refine ⟨hc, ?_⟩
  simp only [apply_op]
  rw [hc]

/-- C7 at a concrete input: the candidate [650, 700] on item 7 conflicts with
booking 1 of storeA and leaves the store unchanged. -/
theorem C7_rejected_create_persists_nothing_witness :
    create_booking ⟨2, 7, 650, 700⟩ storeA = Except.error ApiError.conflict ∧
    apply_op (Op.create ⟨2, 7, 650, 700⟩) storeA = storeA :=
  C7_rejected_create_persists_nothing ⟨2, 7, 650, 700⟩ storeA rfl

/-- C9: the availability check never validates start_time < end_time: a
candidate with end_time <= start_time is not rejected on that ground, and
when no existing booking satisfies the overlap predicate against it the
booking is persisted unchecked. -/
theorem C9_no_interval_validation (pl : BookingCreate) (s : Store)
    (hinv : pl.end_time ≤ pl.start_time)
    (hno : ∀ b ∈ s.bookings, ¬(b.item_id = pl.item_id ∧
        b.start_time ≤ pl.end_time ∧ b.end_time ≥ pl.start_time)) :
    check_if_item_available pl.item_id pl.start_time pl.end_time s.bookings =
      Except.ok () ∧
    create_booking pl s = Except.ok
      (⟨s.next_id, pl.user_id, pl.item_id, pl.start_time, pl.end_time⟩,
       ⟨s.bookings ++
          [⟨s.next_id, pl.user_id, pl.item_id, pl.start_time, pl.end_time⟩],
        s.next_id + 1⟩) :=
  ⟨(check_eq_ok_iff _ _ _ _).mpr hno, create_booking_of_check_ok pl s hno⟩

/-- C9 at a concrete input: the inverted candidate [100, 50] on item 3 passes
the check against an empty table and is persisted as submitted. -/
theorem C9_no_interval_validation_witness :
    check_if_item_available 3 100 50 (⟨[], 1⟩ : Store).bookings =
      Except.ok () ∧
    create_booking ⟨1, 3, 100, 50⟩ (⟨[], 1⟩ : Store) = Except.ok
      (⟨1, 1, 3, 100, 50⟩, ⟨[⟨1, 1, 3, 100, 50⟩], 2⟩) :=
  C9_no_interval_validation ⟨1, 3, 100, 50⟩ ⟨[], 1⟩ (by decide) (by decide)

/-- C10: booking creation does not bind ownership to the caller: the route's
outcome is independent of the authenticated actor and of the user table, and
a persisted booking's user_id is exactly the user_id supplied in the request
body, with no check against the actor's id or the user table. -/
theorem C10_no_ownership_binding (a1 a2 : User) (us1 us2 : List User)
    (pl : BookingCreate) (s : Store) :
    create_booking_route a1 us1 pl s = create_booking_route a2 us2 pl s ∧
    (∀ db s2, create_booking_route a1 us1 pl s = Except.ok (db, s2) →
      db.user_id = pl.user_id) := by
  refine ⟨rfl, fun db s2 h => ?_⟩
  obtain ⟨hall, hr⟩ := create_booking_ok_elim pl s (db, s2) h
  have hdb : db =
      ⟨s.next_id, pl.user_id, pl.item_id, pl.start_time, pl.end_time⟩ :=
    congrArg Prod.fst hr
  rw [hdb]

/-- C10 at a concrete input: two different actors and two different user
tables yield the same outcome creating a booking owned by user 42. -/
theorem C10_no_ownership_binding_witness :
    create_booking_route ⟨1⟩ [] ⟨42, 7, 661, 720⟩ storeA =
      create_booking_route ⟨2⟩ [⟨1⟩] ⟨42, 7, 661, 720⟩ storeA ∧
    (⟨2, 42, 7, 661, 720⟩ : Booking).user_id = 42 := by
  have h := C10_no_ownership_binding ⟨1⟩ ⟨2⟩ [] [⟨1⟩] ⟨42, 7, 661, 720⟩
    storeA
  exact ⟨h.1, h.2 ⟨2, 42, 7, 661, 720⟩
    ⟨[⟨1, 1, 7, 600, 660⟩, ⟨2, 42, 7, 661, 720⟩], 3⟩ rfl⟩

/-- C2 fails on the code: storeTwo satisfies the no-overlap invariant, yet
the single owner update in opsMove (which skips the availability check) moves
booking 2 onto booking 1 and the reached store violates the invariant. -/
theorem C2_update_breaks_no_overlap :
    noOverlap storeTwo ∧ ¬ noOverlap (run opsMove storeTwo) :=
  ⟨by decide, by decide⟩

/-- C2 amended: every sequence of create and delete requests starting from a
store satisfying the no-overlap invariant preserves it; update requests are
excluded, because update_booking skips the availability check and can break
the invariant (see the counterexample). -/
theorem C2_create_delete_preserve_no_overlap (ops : List Op)
    (h : ∀ op ∈ ops, op.isUpd = false) (s : Store) (hs : noOverlap s) :
    noOverlap (run ops s) :=
  run_no_upd_preserves ops s h hs

/-- C2 amended claim at a concrete input: a create followed by an owner
delete, starting from the empty store. -/
theorem C2_create_delete_preserve_no_overlap_witness :
    noOverlap (run [Op.create ⟨1, 7, 600, 660⟩, Op.delete 1 ⟨1⟩]
      ⟨[], 1⟩) :=
  C2_create_delete_preserve_no_overlap
    [Op.create ⟨1, 7, 600, 660⟩, Op.delete 1 ⟨1⟩] (by decide)
    ⟨[], 1⟩ (by decide)

/-- C3 fails on the code: the owner update moving booking 2 of storeTwo onto
[5, 15] overlaps the distinct persisted booking 1 on the same item, yet
update_booking accepts it instead of rejecting with Conflict: no availability
re-validation happens on update. -/
theorem C3_overlapping_update_accepted :
    bookingsOverlap ⟨2, 5, 1, 5, 15⟩ ⟨1, 5, 1, 0, 10⟩ ∧
    (⟨2, 5, 1, 5, 15⟩ : Booking) ≠ ⟨1, 5, 1, 0, 10⟩ ∧
    (⟨1, 5, 1, 0, 10⟩ : Booking) ∈ storeTwo.bookings ∧
    update_booking 2 ⟨5, 1, 5, 15⟩ user5 storeTwo =
      Except.ok (⟨2, 5, 1, 5, 15⟩,
        ⟨[⟨1, 5, 1, 0, 10⟩, ⟨2, 5, 1, 5, 15⟩], 3⟩) :=
  ⟨by decide, by decide, by decide, rfl⟩

/-- C3 amended: updates are not re-validated through the Availability
Checker at all: update_booking never returns Conflict, and whenever the
target row exists and the actor is its owner, the update succeeds with
exactly the submitted fields regardless of overlaps; in particular
re-submitting a booking's own unchanged time range always succeeds. -/
theorem C3_update_not_revalidated (id : Nat) (pl : BookingCreate) (a : User)
    (s : Store) :
    update_booking id pl a s ≠ Except.error ApiError.conflict ∧
    (∀ db, s.bookings.find? (fun b => b.id == id) = some db →
      db.user_id = a.id →
      update_booking id pl a s = Except.ok
        (⟨db.id, pl.user_id, pl.item_id, pl.start_time, pl.end_time⟩,
          ⟨s.bookings.map (fun b => if b.id == id then
              ⟨db.id, pl.user_id, pl.item_id, pl.start_time, pl.end_time⟩
            else b), s.next_id⟩)) := by
  refine ⟨update_booking_never_conflict id pl a s, fun db hf ho => ?_⟩
  exact update_booking_ok_intro id pl a s db hf
    (owner_or_admin_owner db.user_id a ho)

/-- C3 amended claim at a concrete input: the owner re-submits booking 1 of
storeTwo with its own unchanged range and the update succeeds. -/
theorem C3_update_not_revalidated_witness :
    update_booking 1 ⟨5, 1, 0, 10⟩ user5 storeTwo = Except.ok
      (⟨1, 5, 1, 0, 10⟩, ⟨[⟨1, 5, 1, 0, 10⟩, ⟨2, 5, 1, 20, 30⟩], 3⟩) :=
  (C3_update_not_revalidated 1 ⟨5, 1, 0, 10⟩ user5 storeTwo).2
    ⟨1, 5, 1, 0, 10⟩ rfl (by decide)

/-- C5: the claimed ownership gate is broken in the code: the owner path
succeeds and leaves the gate as owner-only, but a non-owner's update or
delete reaches the is_admin attribute read on a User model with no is_admin
column, so the request dies with the unhandled AttributeError (a 500), not
the spec's Forbidden, and no admin state exists that could ever succeed.
Evaluated here at the failing input: user 7 (not the owner of booking 1 of
storeTwo, owned by user 5) attempts both mutations and crashes, the store is
unchanged, while owner user 5 succeeds. -/
theorem C5_ownership_gate_crash :
    update_booking 1 ⟨9, 9, 40, 50⟩ ⟨7⟩ storeTwo =
      Except.error ApiError.attributeError ∧
    delete_booking 1 ⟨7⟩ storeTwo = Except.error ApiError.attributeError ∧
    apply_op (Op.update 1 ⟨9, 9, 40, 50⟩ ⟨7⟩) storeTwo = storeTwo ∧
    apply_op (Op.delete 1 ⟨7⟩) storeTwo = storeTwo ∧
    (∃ s2, delete_booking 1 user5 storeTwo = Except.ok s2) ∧
    (∀ u : User, ∀ r, update_booking 1 ⟨9, 9, 40, 50⟩ u storeTwo =
      Except.ok r → (5 : Int) = u.id) := by
  refine ⟨rfl, rfl, rfl, rfl, ⟨_, rfl⟩, fun u r hr => ?_⟩
  obtain ⟨db2, hf2, hg, _⟩ := update_booking_ok_elim 1 ⟨9, 9, 40, 50⟩ u
    storeTwo r hr
  have hdb : db2 = ⟨1, 5, 1, 0, 10⟩ := by
    have h0 : List.find? (fun b => b.id == 1) storeTwo.bookings =
        some (⟨1, 5, 1, 0, 10⟩ : Booking) := rfl
    rw [h0] at hf2
    exact (Option.some.inj hf2).symm
  rw [hdb] at hg
  exact owner_or_admin_ok_elim 5 u hg

/-- C6: fail-closed admin check: on the backend User model the is_admin
attribute is absent for every representable actor (the table has no such
column, so a present-False flag cannot occur either); the check never treats
any actor as admin — is_admin never returns a value — and every admin-only
inventory operation (create, update, delete) is refused before any mutation.
The raised path is the AttributeError from the attribute read (an unhandled
500): an exception that aborts the request and grants no access. -/
theorem C6_fail_closed_admin (a : User) (pl : InventoryCreate) (id : Nat)
    (s : InvStore) :
    (∀ b, is_admin a ≠ Except.ok b) ∧
    is_admin a = Except.error ApiError.attributeError ∧
    create_item pl a s = Except.error ApiError.attributeError ∧
    update_item id pl a s = Except.error ApiError.attributeError ∧
    delete_item id a s = Except.error ApiError.attributeError := by
  refine ⟨fun b => is_admin_never_ok a b, is_admin_raises a, ?_, ?_, ?_⟩
  · unfold create_item
    rw [is_admin_raises a]
  · unfold update_item
    rw [is_admin_raises a]
  · unfold delete_item
    rw [is_admin_raises a]

/-- C6 at concrete inputs: actor 7 is refused on the admin-only inventory
operations, and is_admin never treats it as admin. -/
theorem C6_fail_closed_admin_witness :
    is_admin ⟨7⟩ = Except.error ApiError.attributeError ∧
    create_item ⟨"Green mamba", "canoe", "L"⟩ ⟨7⟩ ⟨[], 1⟩ =
      Except.error ApiError.attributeError ∧
    delete_item 1 ⟨7⟩ ⟨[⟨1, "Green mamba", "canoe", "L"⟩], 2⟩ =
      Except.error ApiError.attributeError := by
  have h := C6_fail_closed_admin ⟨7⟩ ⟨"Green mamba", "canoe", "L"⟩ 1 ⟨[], 1⟩
  have h2 := C6_fail_closed_admin ⟨7⟩ ⟨"Green mamba", "canoe", "L"⟩ 1
    ⟨[⟨1, "Green mamba", "canoe", "L"⟩], 2⟩
  exact ⟨h.2.1, h.2.2.1, h2.2.2.2.2⟩

/-- C8: deleting a booking frees its slot: delete_booking performs no
availability check (it can never raise Conflict), and after the owner deletes
the only booking whose row overlaps a candidate interval on an item, creating
a booking for that same item and interval succeeds. -/
theorem C8_delete_frees_slot (s : Store) (db : Booking) (a : User)
    (pl : BookingCreate)
    (hf : s.bookings.find? (fun b => b.id == db.id) = some db)
    (howner : db.user_id = a.id)
    (honly : ∀ b ∈ s.bookings,
      b.item_id = pl.item_id → b.start_time ≤ pl.end_time →
        b.end_time ≥ pl.start_time → b.id = db.id) :
    (∀ i u st, delete_booking i u st ≠ Except.error ApiError.conflict) ∧
    delete_booking db.id a s =
      Except.ok ⟨s.bookings.filter (fun b => !(b.id == db.id)), s.next_id⟩ ∧
    ∃ nb s3,
      create_booking pl
          ⟨s.bookings.filter (fun b => !(b.id == db.id)), s.next_id⟩ =
        Except.ok (nb, s3) := by
  refine ⟨fun i u st => delete_booking_never_conflict i u st,
    delete_booking_ok_intro db.id a s db hf
      (owner_or_admin_owner db.user_id a howner), ?_⟩
  have hall : ∀ b ∈ s.bookings.filter (fun b => !(b.id == db.id)),
      ¬(b.item_id = pl.item_id ∧ b.start_time ≤ pl.end_time ∧
          b.end_time ≥ pl.start_time) := by
    intro b hb hp
    have hmem := (List.mem_filter.mp hb).1
    have hid : (!(b.id == db.id)) = true := (List.mem_filter.mp hb).2
    have hne : b.id ≠ db.id := by simpa using hid
    exact hne (honly b hmem hp.1 hp.2.1 hp.2.2)
  exact ⟨_, _, create_booking_of_check_ok pl
    ⟨s.bookings.filter (fun b => !(b.id == db.id)), s.next_id⟩ hall⟩

/-- C8 at concrete inputs: the spec's end-to-end scenario in minutes: user 1
deletes their booking [600, 660] on item 7, after which the previously
conflicting [630, 645] succeeds. -/
theorem C8_delete_frees_slot_witness :
    delete_booking 1 ⟨1⟩ storeA = Except.ok ⟨[], 2⟩ ∧
    ∃ nb s3, create_booking ⟨2, 7, 630, 645⟩ (⟨[], 2⟩ : Store) =
      Except.ok (nb, s3) := by
  have h := C8_delete_frees_slot storeA ⟨1, 1, 7, 600, 660⟩ ⟨1⟩
    ⟨2, 7, 630, 645⟩ rfl (by decide) (by decide)
  exact ⟨h.2.1, h.2.2⟩

end CanoeClub
